import Mathlib

set_option autoImplicit false

/-!
Verification development for the runner game repository.

The embedding below translates the relevant parts of the Python source
(game.py, app.py, dawarich.py, voices.py, llm.py) into Lean definitions.
Python floats are modelled as rationals, Python byte strings as lists of
naturals, fallible Python code (raised exceptions) as Except values.
External collaborators (HTTP feed, TTS stream, clock, filesystem reads)
are passed in as explicit parameters.
-/

/-! Model of Python values as they appear in the goal fields of
RunningGame (game.py). A goal field can be None (the default), a float,
or - because of the positional-argument slip in llm.py - a string. -/

inductive PyVal where
  | none
  | num (q : ℚ)
  | str (s : String)
deriving DecidableEq, Repr

/-- Python truthiness for the values above: None is falsy, a float is
truthy iff nonzero, a string is truthy iff nonempty. -/
def pyTruthy : PyVal → Bool
  | PyVal.none => false
  | PyVal.num q => decide (q ≠ 0)
  | PyVal.str s => decide (s ≠ "")

/-- Python comparison x < v where x is a float and v an arbitrary value:
comparing a float with a string or None raises TypeError, modelled as an
error. -/
def pyLtNum (x : ℚ) (v : PyVal) : Except Unit Bool :=
  match v with
  | PyVal.num r => Except.ok (decide (x < r))
  | _ => Except.error ()

/-- Embedding of RunningGame._is_success (game.py lines 79-86):
success starts True; if the distance goal is truthy and the measured
distance is below it, success becomes False; likewise for the time goal.
A truthy non-numeric goal makes the comparison raise TypeError. -/
def is_success (distance_goal_m time_goal_min : PyVal)
    (distance_m elapsed_min : ℚ) : Except Unit Bool := do
  let c1 ← if pyTruthy distance_goal_m
           then pyLtNum distance_m distance_goal_m else pure false
  let c2 ← if pyTruthy time_goal_min
           then pyLtNum elapsed_min time_goal_min else pure false
  pure (!c1 && !c2)

/-- The goal fields of a RunningGame instance. -/
structure RunningGameGoals where
  distance_goal_m : PyVal
  time_goal_min : PyVal
deriving DecidableEq, Repr

/-- Embedding of the goal-field part of RunningGame.__init__
(game.py lines 9-16): the two goal parameters are stored verbatim. -/
def runningGame_init_goals (distance_goal_m time_goal_min : PyVal) :
    RunningGameGoals :=
  ⟨distance_goal_m, time_goal_min⟩

/-- Embedding of the super().__init__ call in Mission.__init__
(llm.py line 23): super().__init__(game_name, mode, target_value)
passes mode into the distance_goal_m slot and target_value into the
time_goal_min slot of RunningGame.__init__. -/
def mission_init_goals (mode : String) (target_value : ℚ) :
    RunningGameGoals :=
  runningGame_init_goals (PyVal.str mode) (PyVal.num target_value)

/-- Spec-side view of a goal field that is either absent (None) or a
number, lifted into the value model. -/
def optGoal : Option ℚ → PyVal
  | Option.none => PyVal.none
  | Option.some q => PyVal.num q

/-- Spec-side predicate: the distance goal component is violated by a
measured value x. A None goal and a zero goal are never violated. -/
def goal_violated (g : Option ℚ) (x : ℚ) : Bool :=
  g.any fun q => decide (q ≠ 0) && decide (x < q)

/-- Spec-side success predicate on a (distance, elapsed) sample for
numeric-or-absent goals. -/
def num_success (gd gt : Option ℚ) (p : ℚ × ℚ) : Bool :=
  !(goal_violated gd p.1) && !(goal_violated gt p.2)

/-- For numeric-or-absent goals, is_success never raises and computes
exactly the spec-side predicate. -/
theorem is_success_optGoal (gd gt : Option ℚ) (d e : ℚ) :
    is_success (optGoal gd) (optGoal gt) d e =
      Except.ok (num_success gd gt (d, e)) := by
  cases gd with
  | none =>
    cases gt with
    | none =>
      simp [is_success, optGoal, pyTruthy, num_success, goal_violated,
        pure, Except.pure, Bind.bind, Except.bind]
    | some q =>
      by_cases hq : q = 0 <;>
        simp [is_success, optGoal, pyTruthy, pyLtNum, num_success,
          goal_violated, hq, pure, Except.pure, Bind.bind, Except.bind]
  | some p =>
    cases gt with
    | none =>
      by_cases hp : p = 0 <;>
        simp [is_success, optGoal, pyTruthy, pyLtNum, num_success,
          goal_violated, hp, pure, Except.pure, Bind.bind, Except.bind]
    | some q =>
      by_cases hp : p = 0 <;> by_cases hq : q = 0 <;>
        simp [is_success, optGoal, pyTruthy, pyLtNum, num_success,
          goal_violated, hp, hq, pure, Except.pure, Bind.bind, Except.bind]

/-! Model of the monitoring loop in app.py (monitor_mission, lines 34-58)
together with the shared mission_status record (lines 23-29). The loop
body runs while is_active; each tick calls mission.update (whose location
fetch can raise), stores the returned distance and elapsed time, then
evaluates mission._is_success; on success it sets is_success, clears
is_active and calls VoiceGenerator.generate_audio for the success voice
type (modelled by a call counter). No exception handler surrounds the
body, so a raised exception propagates and terminates the loop. -/

inductive TickErr where
  | fetchFailed
  | typeError
deriving DecidableEq, Repr

structure MonitorState where
  distance_m : ℚ
  elapsed_min : ℚ
  is_success : Bool
  is_failure : Bool
  is_active : Bool
  success_audio_calls : ℕ
deriving DecidableEq, Repr

/-- Initial mission_status record from app.py lines 23-29, with the
audio-call counter at zero. -/
def initial_mission_status : MonitorState :=
  ⟨0, 0, false, false, true, 0⟩

/-- One iteration of the while loop in monitor_mission. The fetch
argument is the outcome of mission.update for this tick: an error when
the location-feed request raised (requests.get / raise_for_status in
dawarich.py lines 27-33), otherwise the returned (distance_m,
elapsed_min) pair. When is_active is already false the loop body does
not run at all. -/
def monitor_tick (distance_goal_m time_goal_min : PyVal)
    (s : MonitorState) (fetch : Except Unit (ℚ × ℚ)) :
    Except TickErr MonitorState :=
  if s.is_active then
    match fetch with
    | Except.error _ => Except.error TickErr.fetchFailed
    | Except.ok (d, e) =>
      let s1 := { s with distance_m := d, elapsed_min := e }
      match is_success distance_goal_m time_goal_min d e with
      | Except.error _ => Except.error TickErr.typeError
      | Except.ok true =>
        Except.ok { s1 with is_success := true, is_active := false,
                            success_audio_calls := s1.success_audio_calls + 1 }
      | Except.ok false => Except.ok s1
  else Except.ok s

/-- The monitoring loop over a finite schedule of ticks: a raised
exception aborts the whole loop (the thread dies), later ticks never
run. -/
def monitor_run (distance_goal_m time_goal_min : PyVal)
    (s : MonitorState) (ticks : List (Except Unit (ℚ × ℚ))) :
    Except TickErr MonitorState :=
  match ticks with
  | [] => Except.ok s
  | t :: rest =>
    match monitor_tick distance_goal_m time_goal_min s t with
    | Except.error err => Except.error err
    | Except.ok s2 => monitor_run distance_goal_m time_goal_min s2 rest

/-- Embedding of the result computation of RunningGame.end (game.py
lines 88-100): evaluate _is_success on the final stats and record
SUCCESS or FAILURE. -/
def game_end_result (distance_goal_m time_goal_min : PyVal)
    (distance_m elapsed_min : ℚ) : Except Unit String :=
  match is_success distance_goal_m time_goal_min distance_m elapsed_min with
  | Except.error u => Except.error u
  | Except.ok true => Except.ok "SUCCESS"
  | Except.ok false => Except.ok "FAILURE"

theorem monitor_tick_inactive (dg tg : PyVal) (s : MonitorState)
    (t : Except Unit (ℚ × ℚ)) (h : s.is_active = false) :
    monitor_tick dg tg s t = Except.ok s := by
  simp [monitor_tick, h]

theorem monitor_run_inactive (dg tg : PyVal) (s : MonitorState)
    (ticks : List (Except Unit (ℚ × ℚ))) (h : s.is_active = false) :
    monitor_run dg tg s ticks = Except.ok s := by
  induction ticks with
  | nil => rfl
  | cons t rest ih =>
    simp [monitor_run, monitor_tick_inactive dg tg s t h, ih]

/-- Behaviour of the loop from any active state when every fetch
succeeds and the goals are numeric or absent: the run never raises,
never touches is_failure, increments the success-audio counter exactly
once when some tick satisfies the goal and never otherwise, and leaves
the loop inactive exactly when success was detected. -/
theorem monitor_run_active_spec (gd gt : Option ℚ)
    (ticks : List (ℚ × ℚ)) :
    ∀ s : MonitorState, s.is_active = true →
    ∃ final : MonitorState,
      monitor_run (optGoal gd) (optGoal gt) s (ticks.map Except.ok) =
        Except.ok final ∧
      final.is_failure = s.is_failure ∧
      final.success_audio_calls = s.success_audio_calls +
        (if ticks.any (num_success gd gt) then 1 else 0) ∧
      final.is_success = (s.is_success || ticks.any (num_success gd gt)) ∧
      final.is_active = !(ticks.any (num_success gd gt)) := by
  induction ticks with
  | nil =>
    intro s hs
    exact ⟨s, rfl, rfl, by simp, by simp, by simp [hs]⟩
  | cons t rest ih =>
    intro s hs
    by_cases hp : num_success gd gt t = true
    · refine ⟨{ s with distance_m := t.1, elapsed_min := t.2,
                       is_success := true, is_active := false,
                       success_audio_calls := s.success_audio_calls + 1 },
        ?_, rfl, ?_, ?_, ?_⟩
      · show monitor_run (optGoal gd) (optGoal gt) s
          (Except.ok t :: rest.map Except.ok) = _
        rw [monitor_run]
        have htick : monitor_tick (optGoal gd) (optGoal gt) s
            (Except.ok t) = Except.ok
              { s with distance_m := t.1, elapsed_min := t.2,
                       is_success := true, is_active := false,
                       success_audio_calls := s.success_audio_calls + 1 } := by
          simp [monitor_tick, hs, is_success_optGoal, hp]
        rw [htick]
        exact monitor_run_inactive _ _ _ _ rfl
      · simp [List.any_cons, hp]
      · simp [List.any_cons, hp]
      · simp [List.any_cons, hp]
    · have hp2 : num_success gd gt t = false := by
        cases h2 : num_success gd gt t
        · rfl
        · exact absurd h2 hp
      have htick : monitor_tick (optGoal gd) (optGoal gt) s
          (Except.ok t) = Except.ok
            { s with distance_m := t.1, elapsed_min := t.2 } := by
        simp [monitor_tick, hs, is_success_optGoal, hp2]
      obtain ⟨final, hrun, hf, hc, hsu, ha⟩ :=
        ih { s with distance_m := t.1, elapsed_min := t.2 } (by simp [hs])
      have hany : (t :: rest).any (num_success gd gt) =
          rest.any (num_success gd gt) := by
        simp [List.any_cons, hp2]
      refine ⟨final, ?_, hf, ?_, ?_, ?_⟩
      · show monitor_run (optGoal gd) (optGoal gt) s
          (Except.ok t :: rest.map Except.ok) = _
        rw [monitor_run, htick]
        exact hrun
      · rw [hany]; exact hc
      · rw [hany]; exact hsu
      · rw [hany]; exact ha

/-! Model of the location feed (dawarich.py). A point record is a flat
string-keyed map of numeric fields, an optional nested location map, and
an optional speed. The pairwise distance function (the haversine of
dawarich.py lines 18-25, a pure function of two coordinate pairs) is
passed as a parameter h, since its transcendental arithmetic plays no
role in the structural claims below. -/

structure Point where
  fields : List (String × ℚ)
  location : Option (List (String × ℚ))
  speed : Option ℚ
deriving DecidableEq, Repr

/-- Embedding of Dawarich._extract_coords (dawarich.py lines 35-51):
try the flat key pairs in the fixed priority order of the nested for
loops, then one level of nesting under the location key; an unresolvable
point yields the not-found sentinel, modelled as Option.none. -/
def extract_coords (p : Point) : Option (ℚ × ℚ) :=
  let flat := ["lat", "latitude", "lat_deg"].findSome? fun lat_key =>
    ["lon", "lng", "longitude", "lon_deg"].findSome? fun lon_key =>
      match p.fields.lookup lat_key, p.fields.lookup lon_key with
      | Option.some la, Option.some lo => Option.some (la, lo)
      | _, _ => Option.none
  match flat with
  | Option.some c => Option.some c
  | Option.none =>
    match p.location with
    | Option.some loc =>
      ["lat", "latitude"].findSome? fun lat_key =>
        ["lon", "lng", "longitude"].findSome? fun lon_key =>
          match loc.lookup lat_key, loc.lookup lon_key with
          | Option.some la, Option.some lo => Option.some (la, lo)
          | _, _ => Option.none
    | Option.none => Option.none

/-- Result record of Dawarich.analyze_points. -/
structure AnalyzeResult where
  latest_location : Option (ℚ × ℚ)
  latest_speed : Option ℚ
  distance_travelled_m : ℚ
deriving DecidableEq, Repr

/-- Embedding of Dawarich.analyze_points (dawarich.py lines 53-86): an
empty batch yields None; points with unresolvable coordinates are
dropped; fewer than 2 resolvable coordinates yields None; otherwise the
total distance is the fold over consecutive coordinate pairs (the zip of
the coordinate list with its own tail) in arrival order. -/
def analyze_points (h : ℚ → ℚ → ℚ → ℚ → ℚ) (points : List Point) :
    Option AnalyzeResult :=
  if points.isEmpty then Option.none
  else
    let coords := points.filterMap extract_coords
    if coords.length < 2 then Option.none
    else
      let total := (coords.zip coords.tail).foldl
        (fun acc pq => acc + h pq.1.1 pq.1.2 pq.2.1 pq.2.2) 0
      Option.some
        { latest_location := points.getLast?.bind extract_coords
          latest_speed := points.getLast?.bind Point.speed
          distance_travelled_m := total }

/-- Spec-side recursive sum of pairwise distances over consecutive
coordinates in list order. -/
def consecSum (h : ℚ → ℚ → ℚ → ℚ → ℚ) : List (ℚ × ℚ) → ℚ
  | a :: b :: rest => h a.1 a.2 b.1 b.2 + consecSum h (b :: rest)
  | _ => 0

theorem foldl_zip_tail_eq_consecSum (h : ℚ → ℚ → ℚ → ℚ → ℚ)
    (l : List (ℚ × ℚ)) : ∀ acc : ℚ,
    (l.zip l.tail).foldl
      (fun acc pq => acc + h pq.1.1 pq.1.2 pq.2.1 pq.2.2) acc =
    acc + consecSum h l := by
  induction l with
  | nil => intro acc; simp [consecSum]
  | cons a tl ih =>
    intro acc
    cases tl with
    | nil => simp [consecSum]
    | cons b rest =>
      have : ((a :: b :: rest).zip (a :: b :: rest).tail) =
          (a, b) :: ((b :: rest).zip (b :: rest).tail) := by
        simp [List.zip]
      rw [this, List.foldl_cons, ih (acc + h a.1 a.2 b.1 b.2), consecSum]
      ring

/-! Model of the distance bookkeeping in RunningGame.update (game.py
lines 60-77). The feed response and the wall clock are explicit inputs.
The formatted audit line written to the session log carries the new
total and the elapsed minutes; it is modelled by that pair of values. -/

structure LogEntry where
  distance_m : ℚ
  elapsed_min : ℚ
deriving DecidableEq, Repr

/-- Date part of the session start time, as passed to Dawarich.since
(game.py lines 62-64, dawarich.py lines 88-92). -/
structure GameDate where
  year : ℤ
  month : ℕ
  day : ℕ
deriving DecidableEq, Repr

structure GameState where
  start_date : GameDate
  start_time_s : ℚ
  total_distance_m : ℚ
  log : List LogEntry
deriving DecidableEq, Repr

/-- The assignment guarded by the truthiness test in game.py lines
65-66: the stored total is replaced by the distance field of the feed
response when the response is present (a nonempty dict is truthy) and
its distance field is truthy (nonzero); otherwise it is kept. -/
def update_total (total_distance_m : ℚ) (stats : Option AnalyzeResult) : ℚ :=
  match stats with
  | Option.none => total_distance_m
  | Option.some r =>
    if r.distance_travelled_m ≠ 0 then r.distance_travelled_m
    else total_distance_m

/-- Embedding of RunningGame.update (game.py lines 60-77): query the
feed at the start date of the session, replace the stored total via the
guarded assignment, recompute elapsed minutes from the wall clock,
append one audit line, and return the stats dict. -/
def game_update (st : GameState)
    (feed : GameDate → Option AnalyzeResult) (now_s : ℚ) :
    GameState × (ℚ × ℚ) :=
  let stats := feed st.start_date
  let new_total := update_total st.total_distance_m stats
  let elapsed_min := (now_s - st.start_time_s) / 60
  ({ st with total_distance_m := new_total,
             log := st.log ++ [⟨new_total, elapsed_min⟩] },
   (new_total, elapsed_min))

/-! Model of voices.py: MIME parameter parsing, the WAV wrapper, and the
generate_audio pipeline. Byte strings are lists of naturals below 256;
the multi-byte fields of struct.pack are encoded little-endian, reduced
modulo the field width (struct.pack itself raises on out-of-range
values; the claims below only concern in-range fields). -/

/-- Python split on a one-character separator (all separators used by
voices.py are single characters), implemented structurally over the
character list: split("a;b") = ["a","b"], split(";") = ["",""],
split("") = [""]. -/
def splitChar : List Char → Char → List (List Char)
  | [], _ => [[]]
  | c :: rest, sep =>
    if c = sep then [] :: splitChar rest sep
    else
      match splitChar rest sep with
      | [] => [[c]]
      | h :: t => (c :: h) :: t

def py_split (s : String) (sep : Char) : List String :=
  (splitChar s.data sep).map (fun l => ⟨l⟩)

/-- Python str.strip(): drop leading and trailing whitespace. -/
def py_strip (s : String) : String :=
  ⟨((s.data.dropWhile Char.isWhitespace).reverse.dropWhile
      Char.isWhitespace).reverse⟩

/-- Python str.lower() on the character list. -/
def py_lower (s : String) : String :=
  ⟨s.data.map Char.toLower⟩

/-- Python str.startswith. -/
def py_startswith (s p : String) : Bool :=
  p.data.isPrefixOf s.data

def digitsToNatAux : List Char → ℕ → Option ℕ
  | [], acc => Option.some acc
  | c :: rest, acc =>
    if c.isDigit then digitsToNatAux rest (acc * 10 + (c.toNat - 48))
    else Option.none

def digitsToNat : List Char → Option ℕ
  | [] => Option.none
  | l => digitsToNatAux l 0

/-- Python int(str): optional surrounding whitespace, optional sign,
then decimal digits; anything else raises ValueError. -/
def py_int (s : String) : Option ℤ :=
  match ((s.data.dropWhile Char.isWhitespace).reverse.dropWhile
      Char.isWhitespace).reverse with
  | '-' :: rest => (digitsToNat rest).map (fun n => -(n : ℤ))
  | '+' :: rest => (digitsToNat rest).map (fun n => (n : ℤ))
  | l => (digitsToNat l).map (fun n => (n : ℤ))

/-- Python split(sep, 1)[1]: everything after the first occurrence of
the one-character separator, or failure (IndexError) when it does not
occur. -/
def pySplit1After (s : String) (sep : Char) : Option String :=
  match splitChar s.data sep with
  | [] => Option.none
  | [_] => Option.none
  | _ :: rest => Option.some ⟨List.intercalate [sep] rest⟩

/-- Result dict of parse_audio_mime_type. -/
structure MimeParams where
  bits_per_sample : Option ℤ
  rate : Option ℤ
deriving DecidableEq, Repr

/-- Loop body of parse_audio_mime_type (voices.py lines 230-242): a
segment whose lowercase form starts with the rate prefix sets the rate
from the text after the first equals sign of the original segment; a
segment whose lowercase form starts with the linear-PCM prefix sets the
bit depth from the text after the first lowercase letter l of the
original segment; an unparsable value leaves the field unchanged. -/
def mime_segment_step (st : MimeParams) (segment : String) : MimeParams :=
  let lower := py_lower segment
  if py_startswith lower "rate=" then
    match (pySplit1After segment '=').bind py_int with
    | Option.some n => { st with rate := Option.some n }
    | Option.none => st
  else if py_startswith lower "audio/l" then
    match (pySplit1After segment 'l').bind py_int with
    | Option.some n => { st with bits_per_sample := Option.some n }
    | Option.none => st
  else st

/-- Embedding of parse_audio_mime_type (voices.py lines 222-244). -/
def parse_audio_mime_type (mime_type : String) : MimeParams :=
  if mime_type = "" then ⟨Option.none, Option.none⟩
  else
    let parts := ((py_split mime_type ';').map py_strip).filter
      (fun s => s ≠ "")
    parts.foldl mime_segment_step ⟨Option.none, Option.none⟩

/-- Python expression parameters[key] or default: the default applies
when the parsed value is None or zero (both falsy). -/
def pyOrDefault (v : Option ℤ) (default : ℤ) : ℤ :=
  match v with
  | Option.some n => if n ≠ 0 then n else default
  | Option.none => default

/-- Bit depth resolved by convert_to_wav (voices.py line 193). -/
def resolved_bits (mime_type : String) : ℤ :=
  pyOrDefault (parse_audio_mime_type mime_type).bits_per_sample 16

/-- Sample rate resolved by convert_to_wav (voices.py line 194). -/
def resolved_rate (mime_type : String) : ℤ :=
  pyOrDefault (parse_audio_mime_type mime_type).rate 24000

/-- Two-byte little-endian field of struct.pack. -/
def u16le (n : ℕ) : List ℕ :=
  [n % 256, n / 256 % 256]

/-- Four-byte little-endian field of struct.pack. -/
def u32le (n : ℕ) : List ℕ :=
  [n % 256, n / 256 % 256, n / 65536 % 256, n / 16777216 % 256]

/-- Four-character tag field of struct.pack. -/
def tag4 (s : String) : List ℕ :=
  s.toList.map Char.toNat

/-- Embedding of convert_to_wav (voices.py lines 190-219): a RIFF/WAVE
header in the field order of the struct.pack format string, followed by
the raw samples. -/
def convert_to_wav (audio_data : List ℕ) (mime_type : String) : List ℕ :=
  let bits_per_sample := resolved_bits mime_type
  let sample_rate := resolved_rate mime_type
  let num_channels : ℤ := 1
  let data_size : ℕ := audio_data.length
  let bytes_per_sample := Int.fdiv bits_per_sample 8
  let block_align := num_channels * bytes_per_sample
  let byte_rate := sample_rate * block_align
  let chunk_size : ℕ := 36 + data_size
  let header :=
    tag4 "RIFF" ++ u32le chunk_size ++ tag4 "WAVE" ++ tag4 "fmt " ++
    u32le 16 ++ u16le 1 ++ u16le num_channels.toNat ++
    u32le sample_rate.toNat ++ u32le byte_rate.toNat ++
    u16le block_align.toNat ++ u16le bits_per_sample.toNat ++
    tag4 "data" ++ u32le data_size
  header ++ audio_data

/-- Spec-side little-endian decoding of a two-byte field at the head of
a byte list. -/
def readU16 (l : List ℕ) : ℕ :=
  l.getD 0 0 + 256 * l.getD 1 0

/-- Spec-side little-endian decoding of a four-byte field at the head of
a byte list. -/
def readU32 (l : List ℕ) : ℕ :=
  l.getD 0 0 + 256 * l.getD 1 0 + 65536 * l.getD 2 0 +
    16777216 * l.getD 3 0

theorem readU32_u32le (n : ℕ) (rest : List ℕ) :
    readU32 (u32le n ++ rest) = n % 4294967296 := by
  simp [readU32, u32le]
  omega

theorem readU16_u16le (n : ℕ) (rest : List ℕ) :
    readU16 (u16le n ++ rest) = n % 65536 := by
  simp [readU16, u16le]
  omega

/-! Model of VoiceGenerator.generate_audio (voices.py lines 72-187).
The synthesis stream is a list of chunks, each a list of parts; a part
carries optional inline audio data (with an optional MIME type) and an
optional text. The clock (timestamp string), the rendered template text
and the extension-lookup table are explicit parameters. The function
returns the list of file writes it performs, in order, together with the
returned path or the raised error. -/

structure InlineData where
  mime_type : Option String
  data : List ℕ
deriving DecidableEq, Repr

structure StreamPart where
  inline_data : Option InlineData
  text : Option String
deriving DecidableEq, Repr

structure StreamAcc where
  audio_bytes : List ℕ
  audio_mime_type : Option String
  supplemental_text : List String
deriving DecidableEq, Repr

/-- Per-part accumulation step (voices.py lines 148-157): a part with
truthy inline data (present, nonempty bytes) extends the audio buffer
and fills the MIME type while it is still None; any other part
contributes its text when that text is truthy. -/
def process_part (st : StreamAcc) (p : StreamPart) : StreamAcc :=
  match p.inline_data with
  | Option.some idata =>
    if idata.data ≠ [] then
      { st with
        audio_bytes := st.audio_bytes ++ idata.data,
        audio_mime_type :=
          match st.audio_mime_type with
          | Option.none => idata.mime_type
          | Option.some m => Option.some m }
    else
      match p.text with
      | Option.some t => if t ≠ "" then
          { st with supplemental_text := st.supplemental_text ++ [t] }
        else st
      | Option.none => st
  | Option.none =>
    match p.text with
    | Option.some t => if t ≠ "" then
        { st with supplemental_text := st.supplemental_text ++ [t] }
      else st
    | Option.none => st

/-- Accumulation over the whole stream (voices.py lines 140-157). A
chunk with no candidates, no content or no parts is skipped, which is
the same as iterating over it as an empty part list. -/
def accumulate_stream (stream : List (List StreamPart)) : StreamAcc :=
  stream.flatten.foldl process_part ⟨[], Option.none, []⟩

inductive VoiceErr where
  | valueErr
  | synthesisFailed
deriving DecidableEq, Repr

inductive FileWrite where
  | bytes (path : String) (data : List ℕ)
  | text (path : String) (content : String)
deriving DecidableEq, Repr

/-- The extension lookup of voices.py lines 165-166: guess an extension
only when the accumulated MIME type is truthy (present and nonempty). -/
def resolved_ext0 (guess_ext : String → Option String)
    (acc : StreamAcc) : Option String :=
  match acc.audio_mime_type with
  | Option.some m => if m ≠ "" then guess_ext m else Option.none
  | Option.none => Option.none

/-- The MIME string passed to convert_to_wav in voices.py line 170:
the accumulated MIME type when truthy, the default descriptor
otherwise. -/
def resolved_wav_mime (acc : StreamAcc) : String :=
  match acc.audio_mime_type with
  | Option.some m => if m ≠ "" then m else "audio/L16;rate=24000"
  | Option.none => "audio/L16;rate=24000"

/-- Embedding of generate_audio (voices.py lines 72-187), from the
narration-resolution step onward. rendered stands for the result of
_render_script; guess_ext stands for mimetypes.guess_extension;
timestamp stands for the strftime of the current time. The first
component collects the file writes actually performed, in program
order. -/
def generate_audio (game_name voice_type : String) (text : Option String)
    (rendered : String) (guess_ext : String → Option String)
    (stream : List (List StreamPart)) (timestamp : String) :
    List FileWrite × Except VoiceErr String :=
  let narration0 := py_strip (text.getD "")
  let narration := if narration0 = "" then rendered else narration0
  if narration = "" then ([], Except.error VoiceErr.valueErr)
  else
    let acc := accumulate_stream stream
    if acc.audio_bytes = [] then ([], Except.error VoiceErr.synthesisFailed)
    else
      let ext0 := resolved_ext0 guess_ext acc
      let audio_data :=
        match ext0 with
        | Option.some _ => acc.audio_bytes
        | Option.none => convert_to_wav acc.audio_bytes (resolved_wav_mime acc)
      let extension :=
        match ext0 with
        | Option.some e => e
        | Option.none => ".wav"
      let audio_dir := "stories/" ++ game_name ++ "/audio/" ++ voice_type
      let audio_path := audio_dir ++ "/" ++ timestamp ++ extension
      let transcript_path := audio_dir ++ "/" ++ timestamp ++ ".txt"
      let transcript := String.intercalate "\n\n"
        ([narration] ++
         if acc.supplemental_text ≠ []
         then [String.intercalate "\n" acc.supplemental_text] else [])
      ([FileWrite.bytes audio_path audio_data,
        FileWrite.text transcript_path transcript],
       Except.ok audio_path)

/-! Claim theorems. -/

/-- Helper: for a nonnegative measured value, a goal component is not
violated exactly when it is absent or its threshold is at most the
measured value (a zero threshold is vacuously met since the measured
value is nonnegative). -/
theorem not_violated_eq_all (g : Option ℚ) (x : ℚ) (hx : 0 ≤ x) :
    (!(goal_violated g x)) = g.all fun q => decide (q ≤ x) := by
  cases g with
  | none => simp [goal_violated]
  | some q =>
    by_cases hq : q = 0
    · subst hq
      simp [goal_violated, hx]
    · simp [goal_violated, Option.any_some, Option.all_some, hq]
      rw [← decide_not]
      exact decide_eq_decide.mpr not_le.symm

/-- C1: the claim says a FetchFailed raised inside one polling tick of
monitor_mission is caught and logged and the next scheduled tick still
runs. In the source no handler surrounds the loop body, so the raised
transport error propagates and terminates the loop: on a concrete
schedule whose second fetch fails, the run aborts with fetchFailed and
the third tick, which would have detected success, never executes. -/
theorem C1_fetch_failure_aborts_monitor_loop :
    monitor_run (optGoal (Option.some 5000)) (optGoal Option.none)
      initial_mission_status
      [Except.ok (100, 1), Except.error (), Except.ok (6000, 30)] =
      Except.error TickErr.fetchFailed ∧
    monitor_run (optGoal (Option.some 5000)) (optGoal Option.none)
      initial_mission_status
      [Except.ok (100, 1), Except.ok (6000, 30)] =
      Except.ok ⟨6000, 30, true, false, false, 1⟩ := by
  constructor <;> rfl

/-- C2: constructing a Mission passes mode and target_value positionally
into the (distance_goal_m, time_goal_min) slots of RunningGame, so the
distance goal of the resulting tracker is the mode string; evaluating
_is_success on such a tracker compares a number with a string and raises
TypeError instead of returning a boolean. -/
theorem C2_mission_goal_slot_mismatch (mode : String)
    (target_value d e : ℚ) (h : mode ≠ "") :
    (mission_init_goals mode target_value).distance_goal_m =
      PyVal.str mode ∧
    is_success (mission_init_goals mode target_value).distance_goal_m
      (mission_init_goals mode target_value).time_goal_min d e =
      Except.error () := by
  refine ⟨rfl, ?_⟩
  simp [mission_init_goals, runningGame_init_goals, is_success, pyTruthy,
    pyLtNum, h, Bind.bind, Except.bind]

theorem C2_witness :
    "distance" ≠ "" ∧
    ((mission_init_goals "distance" 5).distance_goal_m =
        PyVal.str "distance" ∧
      is_success (mission_init_goals "distance" 5).distance_goal_m
        (mission_init_goals "distance" 5).time_goal_min 100 1 =
        Except.error ()) :=
  ⟨by decide, C2_mission_goal_slot_mismatch "distance" 5 100 1 (by decide)⟩

/-- C3: for nonnegative measured values, goal evaluation succeeds
exactly when every defined goal component has its measured value at or
above the threshold (inclusive boundary), an unset component being
vacuously satisfied; in particular the goal of 5000 metres with
measured distance exactly 5000 succeeds, and the goal of 5000 metres
and 30 minutes with distance met but time unmet fails. -/
theorem C3_goal_evaluation_inclusive (dg tg : Option ℚ) (d e : ℚ)
    (hd : 0 ≤ d) (he : 0 ≤ e) :
    is_success (optGoal dg) (optGoal tg) d e =
      Except.ok ((dg.all fun q => decide (q ≤ d)) &&
                 (tg.all fun q => decide (q ≤ e))) ∧
    is_success (PyVal.num 5000) PyVal.none 5000 0 = Except.ok true ∧
    is_success (PyVal.num 5000) (PyVal.num 30) 6000 20 = Except.ok false := by
  refine ⟨?_, by rfl, by rfl⟩
  rw [is_success_optGoal]
  rw [show num_success dg tg (d, e) =
    ((!(goal_violated dg d)) && (!(goal_violated tg e))) from rfl]
  rw [not_violated_eq_all dg d hd, not_violated_eq_all tg e he]

theorem C3_witness :
    (0 : ℚ) ≤ 5000 ∧ (0 : ℚ) ≤ 20 ∧
    (is_success (optGoal (Option.some 5000)) (optGoal (Option.some 30))
        5000 20 =
      Except.ok (((Option.some (5000 : ℚ)).all fun q => decide (q ≤ 5000)) &&
                 ((Option.some (30 : ℚ)).all fun q => decide (q ≤ 20))) ∧
      is_success (PyVal.num 5000) PyVal.none 5000 0 = Except.ok true ∧
      is_success (PyVal.num 5000) (PyVal.num 30) 6000 20 =
        Except.ok false) :=
  ⟨by norm_num, by norm_num,
    C3_goal_evaluation_inclusive (Option.some 5000) (Option.some 30)
      5000 20 (by norm_num) (by norm_num)⟩

/-- C10: a goal component stored as zero is falsy, so the truthiness
guard in _is_success skips it exactly as it skips None: evaluation with
a zero distance goal coincides with evaluation with an unset distance
goal, and with no time goal it succeeds regardless of the measured
distance. -/
theorem C10_zero_goal_vacuous :
    (∀ (tg : PyVal) (d e : ℚ),
      is_success (PyVal.num 0) tg d e = is_success PyVal.none tg d e) ∧
    (∀ d e : ℚ,
      is_success (PyVal.num 0) PyVal.none d e = Except.ok true) := by
  constructor
  · intro tg d e
    simp [is_success, pyTruthy]
  · intro d e
    simp [is_success, pyTruthy, Bind.bind, Except.bind, pure, Except.pure]

/-! Concrete inputs used to exercise the feed pipeline. The pairwise
distance argument is a simple symmetric nonnegative stand-in for the
haversine function; the batches model a feed response that later
returns fewer points for the same session. -/

def demo_dist (lat1 lon1 lat2 lon2 : ℚ) : ℚ :=
  (lat2 - lat1) * (lat2 - lat1) + (lon2 - lon1) * (lon2 - lon1)

def demo_point (la lo : ℚ) : Point :=
  ⟨[("lat", la), ("lon", lo)], Option.none, Option.none⟩

def demo_batch1 : List Point :=
  [demo_point 0 0, demo_point 0 1, demo_point 0 2]

def demo_batch2 : List Point :=
  [demo_point 0 0, demo_point 0 1]

def demo_batch3 : List Point :=
  [demo_point 0 0, demo_point 0 0]

def demo_state0 : GameState :=
  ⟨⟨2026, 1, 1⟩, 0, 0, []⟩

/-- C4 counterexample: the claim says cumulative_distance_m is
non-decreasing across consecutive update calls for every possible
sequence of point batches returned by the feed. On a concrete pair of
batches where the second computes a smaller positive full-session total
(here the feed returns fewer points on the second tick), the stored
total strictly decreases from 2 to 1. -/
theorem C4_counterexample :
    (game_update
      (game_update demo_state0
        (fun _ => analyze_points demo_dist demo_batch1) 600).1
      (fun _ => analyze_points demo_dist demo_batch2) 1200).1.total_distance_m
    <
    (game_update demo_state0
      (fun _ => analyze_points demo_dist demo_batch1) 600).1.total_distance_m := by
  have hb1 : analyze_points demo_dist demo_batch1 =
      Option.some ⟨Option.some (0, 2), Option.none, 2⟩ := by
    have h : analyze_points demo_dist demo_batch1 =
        Option.some ⟨Option.some (0, 2), Option.none,
          (([((0 : ℚ), (0 : ℚ)), (0, 1), (0, 2)].zip
              [((0 : ℚ), (1 : ℚ)), (0, 2)]).foldl
            (fun acc pq => acc + demo_dist pq.1.1 pq.1.2 pq.2.1 pq.2.2)
            0)⟩ := rfl
    rw [h]
    norm_num [List.zip, List.zipWith, List.foldl, demo_dist]
  have hb2 : analyze_points demo_dist demo_batch2 =
      Option.some ⟨Option.some (0, 1), Option.none, 1⟩ := by
    have h : analyze_points demo_dist demo_batch2 =
        Option.some ⟨Option.some (0, 1), Option.none,
          (([((0 : ℚ), (0 : ℚ)), (0, 1)].zip [((0 : ℚ), (1 : ℚ))]).foldl
            (fun acc pq => acc + demo_dist pq.1.1 pq.1.2 pq.2.1 pq.2.2)
            0)⟩ := rfl
    rw [h]
    norm_num [List.zip, List.zipWith, List.foldl, demo_dist]
  have h1 : (game_update demo_state0
      (fun _ => analyze_points demo_dist demo_batch1)
      600).1.total_distance_m = 2 := by
    simp [game_update, update_total, hb1]
  have h2 : (game_update
      (game_update demo_state0
        (fun _ => analyze_points demo_dist demo_batch1) 600).1
      (fun _ => analyze_points demo_dist demo_batch2)
      1200).1.total_distance_m = 1 := by
    simp [game_update, update_total, hb2]
  rw [h1, h2]
  norm_num

/-- C4 amended: within one session the stored total never moves by a
per-tick delta; one update keeps it unchanged when the feed response is
absent or reports a zero total, and otherwise replaces it by the
reported total. Consequently the total is non-decreasing across a
sequence of updates provided each tick with a usable feed response
reports a full-session total at least as large as the previously stored
value (as when every batch extends the previous one); a usable response
with a smaller total strictly decreases it. -/
theorem C4_amended_monotonicity (st : GameState)
    (feed : GameDate → Option AnalyzeResult) (now_s : ℚ)
    (h : ∀ r, feed st.start_date = Option.some r →
      r.distance_travelled_m = 0 ∨
      st.total_distance_m ≤ r.distance_travelled_m) :
    st.total_distance_m ≤ (game_update st feed now_s).1.total_distance_m := by
  show st.total_distance_m ≤ update_total st.total_distance_m (feed st.start_date)
  cases hf : feed st.start_date with
  | none => simp [update_total]
  | some r =>
    rcases h r hf with h0 | hle
    · simp [update_total, h0]
    · by_cases hz : r.distance_travelled_m = 0
      · simp [update_total, hz]
      · simp [update_total, hz]
        exact hle

theorem C4_witness :
    (∀ r, ((fun _ => Option.some ⟨Option.none, Option.none, 7⟩ :
        GameDate → Option AnalyzeResult) demo_state0.start_date) =
        Option.some r →
      r.distance_travelled_m = 0 ∨
      demo_state0.total_distance_m ≤ r.distance_travelled_m) ∧
    demo_state0.total_distance_m ≤
      (game_update demo_state0
        (fun _ => Option.some ⟨Option.none, Option.none, 7⟩)
        600).1.total_distance_m :=
  ⟨fun r hr => by
      refine Or.inr ?_
      have : r = ⟨Option.none, Option.none, 7⟩ := by
        injection hr with h2
        exact h2.symm
      rw [this]
      norm_num [demo_state0],
    C4_amended_monotonicity demo_state0
      (fun _ => Option.some ⟨Option.none, Option.none, 7⟩) 600
      (fun r hr => by
        refine Or.inr ?_
        have : r = ⟨Option.none, Option.none, 7⟩ := by
          injection hr with h2
          exact h2.symm
        rw [this]
        norm_num [demo_state0])⟩

/-- C5: starting from the initial mission_status, over any schedule of
successful fetches with numeric-or-absent goals, the monitor loop never
raises, never sets the FAILURE flag, fires the success narration
exactly once when some tick satisfies the goal and never otherwise,
leaves the loop active exactly when no tick succeeded, and once success
is detected the loop is inactive and any further ticks change nothing
(the transition is irreversible and polling stops). FAILURE is produced
solely by the end-of-session evaluation, exactly when the final sample
does not satisfy the goal. -/
theorem C5_success_once_then_stop (gd gt : Option ℚ)
    (ticks : List (ℚ × ℚ)) :
    (∃ final : MonitorState,
      monitor_run (optGoal gd) (optGoal gt) initial_mission_status
        (ticks.map Except.ok) = Except.ok final ∧
      final.is_failure = false ∧
      final.success_audio_calls =
        (if ticks.any (num_success gd gt) then 1 else 0) ∧
      final.is_success = ticks.any (num_success gd gt) ∧
      final.is_active = !(ticks.any (num_success gd gt)) ∧
      (ticks.any (num_success gd gt) = true →
        ∀ more, monitor_run (optGoal gd) (optGoal gt) final more =
          Except.ok final)) ∧
    (∀ d e : ℚ, game_end_result (optGoal gd) (optGoal gt) d e =
      Except.ok "FAILURE" ↔ num_success gd gt (d, e) = false) := by
  constructor
  · obtain ⟨final, hrun, hf, hc, hsu, ha⟩ :=
      monitor_run_active_spec gd gt ticks initial_mission_status rfl
    refine ⟨final, hrun, hf, ?_, ?_, ha, ?_⟩
    · simpa [initial_mission_status] using hc
    · simpa [initial_mission_status] using hsu
    · intro hany more
      have : final.is_active = false := by rw [ha, hany]; rfl
      exact monitor_run_inactive _ _ _ _ this
  · intro d e
    rw [game_end_result, is_success_optGoal]
    cases h : num_success gd gt (d, e) <;> simp

theorem C5_witness :
    (∃ final : MonitorState,
      monitor_run (optGoal (Option.some 5000)) (optGoal Option.none)
        initial_mission_status
        ([((100 : ℚ), (1 : ℚ)), (6000, 30), (1, 50)].map Except.ok) =
        Except.ok final ∧
      final.is_failure = false ∧
      final.success_audio_calls =
        (if [((100 : ℚ), (1 : ℚ)), (6000, 30), (1, 50)].any
             (num_success (Option.some 5000) Option.none)
         then 1 else 0) ∧
      final.is_success = [((100 : ℚ), (1 : ℚ)), (6000, 30), (1, 50)].any
        (num_success (Option.some 5000) Option.none) ∧
      final.is_active = !([((100 : ℚ), (1 : ℚ)), (6000, 30), (1, 50)].any
        (num_success (Option.some 5000) Option.none)) ∧
      ([((100 : ℚ), (1 : ℚ)), (6000, 30), (1, 50)].any
          (num_success (Option.some 5000) Option.none) = true →
        ∀ more, monitor_run (optGoal (Option.some 5000))
          (optGoal Option.none) final more = Except.ok final)) ∧
    (∀ d e : ℚ, game_end_result (optGoal (Option.some 5000))
        (optGoal Option.none) d e = Except.ok "FAILURE" ↔
      num_success (Option.some 5000) Option.none (d, e) = false) :=
  C5_success_once_then_stop (Option.some 5000) Option.none
    [(100, 1), (6000, 30), (1, 50)]

/-- C6 counterexample: the claim says every call of update replaces
cumulative_distance_m with the feed-computed full-session total. On a
feed whose second response is a batch of two identical resolvable
points - a legitimately computed total of exactly 0, which is falsy -
the truthiness guard of game.py lines 65-66 keeps the previously
stored value 2 instead of replacing it with the computed 0. -/
theorem C6_counterexample :
    analyze_points demo_dist demo_batch3 =
      Option.some ⟨Option.some (0, 0), Option.none, 0⟩ ∧
    (game_update
      (game_update demo_state0
        (fun _ => analyze_points demo_dist demo_batch1) 600).1
      (fun _ => analyze_points demo_dist demo_batch3)
      1200).1.total_distance_m = 2 ∧
    ((2 : ℚ) ≠ 0) := by
  have hb3 : analyze_points demo_dist demo_batch3 =
      Option.some ⟨Option.some (0, 0), Option.none, 0⟩ := by
    have h : analyze_points demo_dist demo_batch3 =
        Option.some ⟨Option.some (0, 0), Option.none,
          (([((0 : ℚ), (0 : ℚ)), (0, 0)].zip [((0 : ℚ), (0 : ℚ))]).foldl
            (fun acc pq => acc + demo_dist pq.1.1 pq.1.2 pq.2.1 pq.2.2)
            0)⟩ := rfl
    rw [h]
    norm_num [List.zip, List.zipWith, List.foldl, demo_dist]
  have hb1 : analyze_points demo_dist demo_batch1 =
      Option.some ⟨Option.some (0, 2), Option.none, 2⟩ := by
    have h : analyze_points demo_dist demo_batch1 =
        Option.some ⟨Option.some (0, 2), Option.none,
          (([((0 : ℚ), (0 : ℚ)), (0, 1), (0, 2)].zip
              [((0 : ℚ), (1 : ℚ)), (0, 2)]).foldl
            (fun acc pq => acc + demo_dist pq.1.1 pq.1.2 pq.2.1 pq.2.2)
            0)⟩ := rfl
    rw [h]
    norm_num [List.zip, List.zipWith, List.foldl, demo_dist]
  refine ⟨hb3, ?_, by norm_num⟩
  simp [game_update, update_total, hb1, hb3]

/-- C6 amended: one call of RunningGame.update queries the feed only at
the date of the session start (the behaviour depends only on the feed
response at that date); when the response carries a truthy (nonzero)
total it replaces the stored total with that computed full-session
total, independently of the previously stored value, so no per-tick
delta is ever added; when the feed yields no data or a zero computed
total the previous value is kept (not replaced). It recomputes elapsed
minutes from the wall-clock delta against the start time, appends
exactly one audit line to the session log, and returns the stored
total together with the elapsed minutes. -/
theorem C6_update_replaces_and_logs (st : GameState)
    (feed : GameDate → Option AnalyzeResult) (now_s : ℚ) :
    (∀ r, feed st.start_date = Option.some r →
      r.distance_travelled_m ≠ 0 →
      (game_update st feed now_s).1.total_distance_m =
        r.distance_travelled_m ∧
      ∀ old : ℚ, (game_update { st with total_distance_m := old }
        feed now_s).1.total_distance_m = r.distance_travelled_m) ∧
    (feed st.start_date = Option.none →
      (game_update st feed now_s).1.total_distance_m =
        st.total_distance_m) ∧
    (∀ r, feed st.start_date = Option.some r →
      r.distance_travelled_m = 0 →
      (game_update st feed now_s).1.total_distance_m =
        st.total_distance_m) ∧
    (game_update st feed now_s).2.2 = (now_s - st.start_time_s) / 60 ∧
    (game_update st feed now_s).2.1 =
      (game_update st feed now_s).1.total_distance_m ∧
    (game_update st feed now_s).1.log = st.log ++
      [⟨(game_update st feed now_s).1.total_distance_m,
        (now_s - st.start_time_s) / 60⟩] ∧
    (∀ feed2 : GameDate → Option AnalyzeResult,
      feed2 st.start_date = feed st.start_date →
      game_update st feed2 now_s = game_update st feed now_s) := by
  refine ⟨?_, ?_, ?_, rfl, rfl, rfl, ?_⟩
  · intro r hr hnz
    constructor
    · show update_total st.total_distance_m (feed st.start_date) = _
      rw [hr]
      simp [update_total, hnz]
    · intro old
      show update_total old (feed st.start_date) = _
      rw [hr]
      simp [update_total, hnz]
  · intro hr
    show update_total st.total_distance_m (feed st.start_date) = _
    rw [hr]
    rfl
  · intro r hr h0
    show update_total st.total_distance_m (feed st.start_date) = _
    rw [hr]
    simp [update_total, h0]
  · intro feed2 h2
    show game_update st feed2 now_s = game_update st feed now_s
    rw [game_update, game_update, h2]

theorem C6_witness :
    ((∀ r, ((fun _ => Option.some ⟨Option.none, Option.none, 7⟩ :
        GameDate → Option AnalyzeResult) demo_state0.start_date) =
        Option.some r →
      r.distance_travelled_m ≠ 0 →
      (game_update demo_state0
        (fun _ => Option.some ⟨Option.none, Option.none, 7⟩)
        600).1.total_distance_m = r.distance_travelled_m ∧
      ∀ old : ℚ, (game_update
        { demo_state0 with total_distance_m := old }
        (fun _ => Option.some ⟨Option.none, Option.none, 7⟩)
        600).1.total_distance_m = r.distance_travelled_m)) ∧
    (game_update demo_state0
      (fun _ => Option.some ⟨Option.none, Option.none, 7⟩)
      600).1.total_distance_m = 7 ∧
    (game_update { demo_state0 with total_distance_m := 5 }
      (fun _ => Option.some ⟨Option.none, Option.none, 0⟩)
      600).1.total_distance_m =
      ({ demo_state0 with
          total_distance_m := 5 } : GameState).total_distance_m :=
  ⟨((C6_update_replaces_and_logs demo_state0
      (fun _ => Option.some ⟨Option.none, Option.none, 7⟩) 600).1),
   ((C6_update_replaces_and_logs demo_state0
      (fun _ => Option.some ⟨Option.none, Option.none, 7⟩) 600).1
      ⟨Option.none, Option.none, 7⟩ rfl (by norm_num)).1,
   ((C6_update_replaces_and_logs
      { demo_state0 with total_distance_m := 5 }
      (fun _ => Option.some ⟨Option.none, Option.none, 0⟩) 600).2.2.1
      ⟨Option.none, Option.none, 0⟩ rfl rfl)⟩

/-- C7: analyze_points drops points with unresolvable coordinates;
whenever fewer than 2 resolvable coordinates remain (the empty batch
included) it returns the no-data result None rather than a zero
distance, and whenever at least 2 remain it returns a record whose
total distance is the sum of the pairwise distances of consecutive
resolvable coordinates in arrival order. -/
theorem C7_analyze_points_nodata_and_sum (h : ℚ → ℚ → ℚ → ℚ → ℚ)
    (points : List Point) :
    ((points.filterMap extract_coords).length < 2 →
      analyze_points h points = Option.none) ∧
    (2 ≤ (points.filterMap extract_coords).length →
      ∃ r : AnalyzeResult, analyze_points h points = Option.some r ∧
        r.distance_travelled_m =
          consecSum h (points.filterMap extract_coords)) := by
  constructor
  · intro hlt
    by_cases hemp : points.isEmpty
    · simp [analyze_points, hemp]
    · simp [analyze_points, hemp, hlt]
  · intro hge
    have hemp : points.isEmpty = false := by
      cases points with
      | nil => simp at hge
      | cons a tl => rfl
    have hnlt : ¬ (points.filterMap extract_coords).length < 2 := by
      omega
    refine ⟨⟨points.getLast?.bind extract_coords,
      points.getLast?.bind Point.speed,
      consecSum h (points.filterMap extract_coords)⟩, ?_, rfl⟩
    simp only [analyze_points, hemp, Bool.false_eq_true, if_false,
      hnlt, ite_false]
    rw [foldl_zip_tail_eq_consecSum h (points.filterMap extract_coords) 0,
      zero_add]

theorem C7_witness :
    ∃ r : AnalyzeResult,
      analyze_points demo_dist demo_batch1 = Option.some r ∧
      r.distance_travelled_m =
        consecSum demo_dist (demo_batch1.filterMap extract_coords) :=
  (C7_analyze_points_nodata_and_sum demo_dist demo_batch1).2
    (by rw [show demo_batch1.filterMap extract_coords =
        [((0 : ℚ), (0 : ℚ)), (0, 1), (0, 2)] from rfl]
        norm_num)


/-- C8: generate_audio performs no file write on any error outcome (the
zero-audio check precedes every write, so no partial files exist on
failure), raises SynthesisFailed exactly when the accumulated stream
carries no audio bytes, and on success writes exactly two files - the
audio bytes (all accumulated bytes, raw or container-wrapped) and the
transcript (the narration plus the joined supplemental text) - in the
same directory under the same timestamp-derived stem. -/
theorem C8_synthesis_accumulate_then_persist
    (game_name voice_type : String) (text : Option String)
    (rendered : String) (guess_ext : String → Option String)
    (stream : List (List StreamPart)) (timestamp : String) :
    (∀ err, (generate_audio game_name voice_type text rendered guess_ext
        stream timestamp).2 = Except.error err →
      (generate_audio game_name voice_type text rendered guess_ext
        stream timestamp).1 = []) ∧
    (py_strip (text.getD "") ≠ "" →
      (accumulate_stream stream).audio_bytes = [] →
      generate_audio game_name voice_type text rendered guess_ext
        stream timestamp =
        ([], Except.error VoiceErr.synthesisFailed)) ∧
    (py_strip (text.getD "") ≠ "" →
      (accumulate_stream stream).audio_bytes ≠ [] →
      ∃ ext data,
        generate_audio game_name voice_type text rendered guess_ext
          stream timestamp =
          ([FileWrite.bytes ("stories/" ++ game_name ++ "/audio/" ++
              voice_type ++ "/" ++ timestamp ++ ext) data,
            FileWrite.text ("stories/" ++ game_name ++ "/audio/" ++
              voice_type ++ "/" ++ timestamp ++ ".txt")
              (String.intercalate "\n\n"
                ([py_strip (text.getD "")] ++
                 if (accumulate_stream stream).supplemental_text ≠ []
                 then [String.intercalate "\n"
                   (accumulate_stream stream).supplemental_text]
                 else []))],
           Except.ok ("stories/" ++ game_name ++ "/audio/" ++
             voice_type ++ "/" ++ timestamp ++ ext)) ∧
        (data = (accumulate_stream stream).audio_bytes ∨
         ∃ m, data =
           convert_to_wav (accumulate_stream stream).audio_bytes m)) := by
  refine ⟨?_, ?_, ?_⟩
  · intro err herr
    by_cases hn : (if (py_strip (text.getD "") = "") then rendered
        else py_strip (text.getD "")) = ""
    · rw [generate_audio]
      simp only [hn, if_pos rfl]
      simp
    · by_cases ha : (accumulate_stream stream).audio_bytes = []
      · rw [generate_audio]
        simp only [if_neg hn, ha, if_pos rfl]
        simp
      · exfalso
        rw [generate_audio] at herr
        simp only [if_neg hn, if_neg ha] at herr
        simp at herr
  · intro htext hacc
    have hn : ¬ ((if (py_strip (text.getD "") = "") then rendered
        else py_strip (text.getD "")) = "") := by
      rw [if_neg htext]
      exact htext
    rw [generate_audio]
    simp only [if_neg hn, hacc, if_pos rfl]
    simp
  · intro htext hacc
    have hn : ¬ ((if (py_strip (text.getD "") = "") then rendered
        else py_strip (text.getD "")) = "") := by
      rw [if_neg htext]
      exact htext
    cases he : resolved_ext0 guess_ext (accumulate_stream stream) with
    | some e =>
      refine ⟨e, (accumulate_stream stream).audio_bytes, ?_, Or.inl rfl⟩
      rw [generate_audio]
      simp only [if_neg hn, if_neg hacc, he, if_neg htext]
    | none =>
      refine ⟨".wav", convert_to_wav (accumulate_stream stream).audio_bytes
        (resolved_wav_mime (accumulate_stream stream)), ?_,
        Or.inr ⟨resolved_wav_mime (accumulate_stream stream), rfl⟩⟩
      rw [generate_audio]
      simp only [if_neg hn, if_neg hacc, he, if_neg htext]

theorem C8_witness :
    ∃ ext data,
      generate_audio "zombies" "success" (Option.some "Run now") ""
        (fun _ => Option.none)
        [[⟨Option.some ⟨Option.some "audio/L16;rate=24000", [1, 2]⟩,
           Option.none⟩],
         [⟨Option.none, Option.some "note"⟩]]
        "2026-10-12_00-00-00" =
        ([FileWrite.bytes ("stories/" ++ "zombies" ++ "/audio/" ++
            "success" ++ "/" ++ "2026-10-12_00-00-00" ++ ext) data,
          FileWrite.text ("stories/" ++ "zombies" ++ "/audio/" ++
            "success" ++ "/" ++ "2026-10-12_00-00-00" ++ ".txt")
            (String.intercalate "\n\n"
              ([py_strip ((Option.some "Run now").getD "")] ++
               if (accumulate_stream
                    [[⟨Option.some ⟨Option.some "audio/L16;rate=24000",
                        [1, 2]⟩, Option.none⟩],
                     [⟨Option.none, Option.some "note"⟩]]).supplemental_text
                  ≠ []
               then [String.intercalate "\n"
                 (accumulate_stream
                    [[⟨Option.some ⟨Option.some "audio/L16;rate=24000",
                        [1, 2]⟩, Option.none⟩],
                     [⟨Option.none, Option.some "note"⟩]]).supplemental_text]
               else []))],
         Except.ok ("stories/" ++ "zombies" ++ "/audio/" ++ "success" ++
           "/" ++ "2026-10-12_00-00-00" ++ ext)) ∧
      (data = (accumulate_stream
          [[⟨Option.some ⟨Option.some "audio/L16;rate=24000", [1, 2]⟩,
             Option.none⟩],
           [⟨Option.none, Option.some "note"⟩]]).audio_bytes ∨
       ∃ m, data = convert_to_wav
         (accumulate_stream
           [[⟨Option.some ⟨Option.some "audio/L16;rate=24000", [1, 2]⟩,
              Option.none⟩],
            [⟨Option.none, Option.some "note"⟩]]).audio_bytes m) :=
  (C8_synthesis_accumulate_then_persist "zombies" "success"
      (Option.some "Run now") "" (fun _ => Option.none)
      [[⟨Option.some ⟨Option.some "audio/L16;rate=24000", [1, 2]⟩,
         Option.none⟩],
       [⟨Option.none, Option.some "note"⟩]]
      "2026-10-12_00-00-00").2.2 (by decide) (by decide)

theorem wav_length (audio : List ℕ) (mime : String) :
    (convert_to_wav audio mime).length = 44 + audio.length := by
  simp [convert_to_wav, tag4, u32le, u16le]
  omega

theorem wav_drop44 (audio : List ℕ) (mime : String) :
    (convert_to_wav audio mime).drop 44 = audio := rfl

theorem wav_chunk_field (audio : List ℕ) (mime : String)
    (h : audio.length + 36 < 4294967296) :
    readU32 ((convert_to_wav audio mime).drop 4) = 36 + audio.length := by
  rw [show (convert_to_wav audio mime).drop 4 =
      u32le (36 + audio.length) ++ (tag4 "WAVE" ++ tag4 "fmt " ++
      u32le 16 ++ u16le 1 ++ u16le (1 : ℤ).toNat ++
      u32le (resolved_rate mime).toNat ++
      u32le (resolved_rate mime *
        ((1 : ℤ) * Int.fdiv (resolved_bits mime) 8)).toNat ++
      u16le ((1 : ℤ) * Int.fdiv (resolved_bits mime) 8).toNat ++
      u16le (resolved_bits mime).toNat ++
      tag4 "data" ++ u32le audio.length ++ audio) from rfl, readU32_u32le]
  omega

theorem wav_datasize_field (audio : List ℕ) (mime : String)
    (h : audio.length < 4294967296) :
    readU32 ((convert_to_wav audio mime).drop 40) = audio.length := by
  rw [show (convert_to_wav audio mime).drop 40 =
      u32le audio.length ++ audio from rfl, readU32_u32le]
  omega

theorem wav_channels_field (audio : List ℕ) (mime : String) :
    readU16 ((convert_to_wav audio mime).drop 22) = 1 := by
  rw [show (convert_to_wav audio mime).drop 22 =
      u16le (1 : ℤ).toNat ++ (u32le (resolved_rate mime).toNat ++
      u32le (resolved_rate mime *
        ((1 : ℤ) * Int.fdiv (resolved_bits mime) 8)).toNat ++
      u16le ((1 : ℤ) * Int.fdiv (resolved_bits mime) 8).toNat ++
      u16le (resolved_bits mime).toNat ++
      tag4 "data" ++ u32le audio.length ++ audio) from rfl, readU16_u16le]
  norm_num

theorem wav_rate_field (audio : List ℕ) (mime : String)
    (h0 : 0 ≤ resolved_rate mime)
    (h1 : resolved_rate mime < 4294967296) :
    readU32 ((convert_to_wav audio mime).drop 24) =
      (resolved_rate mime).toNat := by
  rw [show (convert_to_wav audio mime).drop 24 =
      u32le (resolved_rate mime).toNat ++
      (u32le (resolved_rate mime *
        ((1 : ℤ) * Int.fdiv (resolved_bits mime) 8)).toNat ++
      u16le ((1 : ℤ) * Int.fdiv (resolved_bits mime) 8).toNat ++
      u16le (resolved_bits mime).toNat ++
      tag4 "data" ++ u32le audio.length ++ audio) from rfl, readU32_u32le]
  omega

theorem wav_byte_rate_field (audio : List ℕ) (mime : String) :
    readU32 ((convert_to_wav audio mime).drop 28) =
      (resolved_rate mime *
        ((1 : ℤ) * Int.fdiv (resolved_bits mime) 8)).toNat %
        4294967296 := by
  rw [show (convert_to_wav audio mime).drop 28 =
      u32le (resolved_rate mime *
        ((1 : ℤ) * Int.fdiv (resolved_bits mime) 8)).toNat ++
      (u16le ((1 : ℤ) * Int.fdiv (resolved_bits mime) 8).toNat ++
      u16le (resolved_bits mime).toNat ++
      tag4 "data" ++ u32le audio.length ++ audio) from rfl, readU32_u32le]

theorem wav_bits_field (audio : List ℕ) (mime : String) :
    readU16 ((convert_to_wav audio mime).drop 34) =
      (resolved_bits mime).toNat % 65536 := by
  rw [show (convert_to_wav audio mime).drop 34 =
      u16le (resolved_bits mime).toNat ++
      (tag4 "data" ++ u32le audio.length ++ audio) from rfl, readU16_u16le]

theorem wav_defaults (mime : String)
    (hb : (parse_audio_mime_type mime).bits_per_sample = Option.none)
    (hr : (parse_audio_mime_type mime).rate = Option.none) :
    resolved_bits mime = 16 ∧ resolved_rate mime = 24000 := by
  constructor <;> simp [resolved_bits, resolved_rate, pyOrDefault, hb, hr]

/-- C9: the container wrapper emits a 44-byte header followed by the
unmodified samples; its RIFF chunk-size field holds 36 plus the payload
length and its data-size field the payload length (for in-range
values), the channel-count field holds 1 (mono), the byte-rate field
holds sample_rate times block_align, bit depth and rate default to 16
and 24000 when the descriptor carries neither, and on one second of
16-bit mono PCM at 24000 Hz (48000 payload bytes under the
linear-16 descriptor, whose capitalised form leaves the bit depth
unparsed and therefore defaulted to 16) the output is exactly
44 + 48000 bytes with chunk-size field 36 + 48000. -/
theorem C9_wav_wrap_fields (audio : List ℕ) (mime : String) :
    (convert_to_wav audio mime).length = 44 + audio.length ∧
    (convert_to_wav audio mime).drop 44 = audio ∧
    (audio.length + 36 < 4294967296 →
      readU32 ((convert_to_wav audio mime).drop 4) =
        36 + audio.length) ∧
    (audio.length < 4294967296 →
      readU32 ((convert_to_wav audio mime).drop 40) = audio.length) ∧
    readU16 ((convert_to_wav audio mime).drop 22) = 1 ∧
    readU32 ((convert_to_wav audio mime).drop 28) =
      (resolved_rate mime *
        ((1 : ℤ) * Int.fdiv (resolved_bits mime) 8)).toNat %
        4294967296 ∧
    ((parse_audio_mime_type mime).bits_per_sample = Option.none →
      (parse_audio_mime_type mime).rate = Option.none →
      resolved_bits mime = 16 ∧ resolved_rate mime = 24000) ∧
    resolved_bits "audio/L16;rate=24000" = 16 ∧
    resolved_rate "audio/L16;rate=24000" = 24000 ∧
    (convert_to_wav (List.replicate 48000 0)
      "audio/L16;rate=24000").length = 44 + 48000 ∧
    readU32 ((convert_to_wav (List.replicate 48000 0)
      "audio/L16;rate=24000").drop 4) = 36 + 48000 := by
  refine ⟨wav_length audio mime, wav_drop44 audio mime,
    wav_chunk_field audio mime, wav_datasize_field audio mime,
    wav_channels_field audio mime, wav_byte_rate_field audio mime,
    wav_defaults mime, by decide, by decide, ?_, ?_⟩
  · rw [wav_length, List.length_replicate]
  · rw [wav_chunk_field (List.replicate 48000 0) "audio/L16;rate=24000"
      (by rw [List.length_replicate]; norm_num), List.length_replicate]

theorem C9_witness :
    readU32 ((convert_to_wav [7] "").drop 4) =
      36 + ([7] : List ℕ).length ∧
    readU32 ((convert_to_wav [7] "").drop 40) = ([7] : List ℕ).length ∧
    (resolved_bits "" = 16 ∧ resolved_rate "" = 24000) :=
  ⟨(C9_wav_wrap_fields [7] "").2.2.1 (by norm_num),
   (C9_wav_wrap_fields [7] "").2.2.2.1 (by norm_num),
   (C9_wav_wrap_fields [7] "").2.2.2.2.2.2.1 rfl rfl⟩
